import Mathlib

set_option linter.unusedVariables false

/-!
Shallow embedding of `src/app.py` (a small LangChain agent demo) and proofs
about its original logic: the four tool functions (`calculator`,
`get_current_time`, `reverse_string`, `get_weather`) and the `main` startup
routine.

Modelling conventions:
* Python strings are Lean `String`s (lists of unicode code points).
* The wall clock (`datetime.now()`) is an explicit `PyDateTime` parameter:
  every function that reads the clock takes the current instant as an
  argument, so "at the same clock instant" means "applied to the same
  `PyDateTime`".
* Python's builtin `eval` is external to the repository; it is abstracted as
  a parameter `evalPy : String → Except String Int` (a successful evaluation
  of an arithmetic expression yields an integer value, a failing one raises
  an exception carrying a message, which the `try/except` in `calculator`
  catches).
* `main`'s observable behaviour is a trace of `Event`s (console prints,
  file reads/writes, model-client construction, agent queries).  The agent
  framework's `invoke` is abstracted as `invoke : String → Except String
  String` (output string, or a raised exception caught by the loop).
-/

namespace AgentLab

/-- An instant of the wall clock, as Python's `datetime` exposes it.
Python's `datetime` guarantees `1 ≤ year ≤ 9999`, `1 ≤ month ≤ 12`,
`1 ≤ day ≤ 31`, `hour ≤ 23`, `minute ≤ 59`, `second ≤ 59`; `Valid` below
records those bounds. -/
structure PyDateTime where
  year : Nat
  month : Nat
  day : Nat
  hour : Nat
  minute : Nat
  second : Nat
deriving DecidableEq, Repr

/-- The range invariants of Python `datetime` values. -/
def PyDateTime.Valid (t : PyDateTime) : Prop :=
  1 ≤ t.year ∧ t.year ≤ 9999 ∧ 1 ≤ t.month ∧ t.month ≤ 12 ∧
  1 ≤ t.day ∧ t.day ≤ 31 ∧ t.hour ≤ 23 ∧ t.minute ≤ 59 ∧ t.second ≤ 59

instance (t : PyDateTime) : Decidable t.Valid := by
  unfold PyDateTime.Valid; infer_instance

/-- Two zero-padded decimal digits, as `strftime`'s `%m`, `%d`, `%H`, `%M`,
`%S` render a value in range `0 ≤ n ≤ 99`. -/
def digit2 (n : Nat) : List Char :=
  [Nat.digitChar (n / 10 % 10), Nat.digitChar (n % 10)]

/-- Four zero-padded decimal digits, as `strftime`'s `%Y` renders a year in
Python `datetime`'s range `1 ≤ y ≤ 9999`. -/
def digit4 (n : Nat) : List Char :=
  [Nat.digitChar (n / 1000 % 10), Nat.digitChar (n / 100 % 10),
   Nat.digitChar (n / 10 % 10), Nat.digitChar (n % 10)]

/-- The characters of `t.strftime("%Y-%m-%d")`. -/
def dateChars (t : PyDateTime) : List Char :=
  digit4 t.year ++ ['-'] ++ digit2 t.month ++ ['-'] ++ digit2 t.day

/-- The characters of `t.strftime("%H:%M:%S")`. -/
def timeChars (t : PyDateTime) : List Char :=
  digit2 t.hour ++ [':'] ++ digit2 t.minute ++ [':'] ++ digit2 t.second

/-- `t.strftime("%Y-%m-%d")` — the string `get_weather` compares against. -/
def strftimeDate (t : PyDateTime) : String :=
  ⟨dateChars t⟩

/-- `t.strftime("%Y-%m-%d %H:%M:%S")` — the string `get_current_time`
returns. -/
def strftimeDateTime (t : PyDateTime) : String :=
  ⟨dateChars t ++ [' '] ++ timeChars t⟩

/-- The characters removed by Python's `str.strip()`: exactly those on
which `str.isspace()` is true — the ASCII whitespace U+0009–U+000D and
U+0020, the separators U+001C–U+001F, the next line U+0085, the no-break
space U+00A0, the Ogham space mark U+1680, the typographic spaces
U+2000–U+200A, the line and paragraph separators U+2028 and U+2029, the
narrow no-break space U+202F, the medium mathematical space U+205F, and
the ideographic space U+3000. -/
def isPySpace (c : Char) : Bool :=
  c == ' ' || c == '\t' || c == '\n' || c == '\x0b' || c == '\x0c' || c == '\r' ||
  c == '\x1c' || c == '\x1d' || c == '\x1e' || c == '\x1f' ||
  c == '\x85' || c == '\xa0' || c == '\u1680' ||
  c == '\u2000' || c == '\u2001' || c == '\u2002' || c == '\u2003' ||
  c == '\u2004' || c == '\u2005' || c == '\u2006' || c == '\u2007' ||
  c == '\u2008' || c == '\u2009' || c == '\u200a' ||
  c == '\u2028' || c == '\u2029' || c == '\u202f' || c == '\u205f' || c == '\u3000'

/-- Python's `s.strip()`: remove leading and trailing whitespace. -/
def pyStrip (s : String) : String :=
  ⟨((s.data.dropWhile isPySpace).reverse.dropWhile isPySpace).reverse⟩

/-- `src/app.py` lines 17–33.  Python's builtin `eval` is external code,
abstracted as the parameter `evalPy`: on an arithmetic expression it either
produces an integer value or raises an exception with a message `e`; the
`try/except Exception` converts the latter into the error string
`f"Error evaluating expression: {e}"`, and `str(result)` is `toString`. -/
def calculator (evalPy : String → Except String Int) (expression : String) : String :=
  match evalPy expression with
  | Except.ok result => toString result
  | Except.error e => "Error evaluating expression: " ++ e

/-- `src/app.py` lines 36–45: `get_current_time` ignores its `input`
argument and returns `datetime.now().strftime("%Y-%m-%d %H:%M:%S")`.
The clock instant `now` is the explicit first parameter. -/
def get_current_time (now : PyDateTime) (input : String) : String :=
  strftimeDateTime now

/-- `src/app.py` lines 48–57: `text[::-1]`, reversal of the string's
code points. -/
def reverse_string (text : String) : String :=
  ⟨text.data.reverse⟩

/-- `src/app.py` lines 60–76.  `today = datetime.now().strftime("%Y-%m-%d")`;
the function returns the sunny string when `date.strip() == today` and the
rainy string otherwise.  The `except` branch of the source cannot fire when
`date` is a string, because `str.strip`, `datetime.now` and `strftime` are
total on that domain, so the embedding is a total function. -/
def get_weather (now : PyDateTime) (date : String) : String :=
  if pyStrip date = strftimeDate now then "Sunny, 72°F" else "Rainy, 55°F"

/-- Observable effects of `main`: console output, file access, construction
of the remote-model client (`ChatOpenAI(...)`, the step that opens a network
session), and issuing an agent query (`agent_executor.invoke`, a network
call to the model API). -/
inductive Event where
  | print (s : String)
  | fileRead (path : String)
  | fileWrite (path : String)
  | constructClient
  | invokeQuery (q : String)
deriving DecidableEq, Repr

/-- `load_dotenv()` from python-dotenv, external code: per its documentation
and the module docstring of `src/app.py` ("Loads environment variables from
a `.env` file (if present)"), it reads the `.env` file when one exists and
does nothing otherwise.  `fsHasDotenv` says whether the file exists. -/
def load_dotenv (fsHasDotenv : Bool) : List Event :=
  if fsHasDotenv then [Event.fileRead ".env"] else []

/-- The five remediation lines printed when `GITHUB_TOKEN` is missing
(`src/app.py` lines 91–95). -/
def remediationEvents : List Event :=
  [Event.print "❌ Error: GITHUB_TOKEN not found in environment variables.",
   Event.print "💡 To fix this:",
   Event.print "   1. Create a .env file in the project root",
   Event.print "   2. Add your token: GITHUB_TOKEN=your_token_here",
   Event.print "   3. Generate a token at https://github.com/settings/tokens"]

/-- The canned test queries of `src/app.py` lines 154–159. -/
def queries : List String :=
  ["What time is it right now?",
   "What is 25 * 4 + 10?",
   "Reverse the string 'Hello World'",
   "What's the weather like today?"]

/-- The separator line `"─" * 50`. -/
def sepLine : String :=
  ⟨List.replicate 50 '─'⟩

/-- One iteration of the query loop (`src/app.py` lines 162–169):
print the separator and the query, issue the query, and print either the
result or the caught exception. -/
def runQuery (invoke : String → Except String String) (query : String) : List Event :=
  [Event.print sepLine, Event.print ("📝 Query: " ++ query ++ "\n"), Event.invokeQuery query] ++
  match invoke query with
  | Except.ok out => [Event.print ("✅ Result: " ++ out ++ "\n")]
  | Except.error e => [Event.print ("❌ Error: " ++ e ++ "\n")]

/-- Everything `main` does after the token check succeeds
(`src/app.py` lines 98–172): construct the model client, register the
tools, build the agent, run the four queries, print the closing lines. -/
def agentFlow (invoke : String → Except String String) : List Event :=
  Event.print "✅ GITHUB_TOKEN loaded successfully." ::
  Event.constructClient ::
  Event.print "🤖 ChatOpenAI model initialized." ::
  Event.print "🛠️ Tools registered: ['Calculator', 'get_current_time', 'reverse_string', 'get_weather']" ::
  Event.print "🤖 Agent created successfully." ::
  Event.print "\n🧪 Running example queries:\n" ::
  ((queries.map (runQuery invoke)).flatten ++
   [Event.print sepLine, Event.print "🎉 Agent demo complete!"])

/-- The token check and what follows it (`src/app.py` lines 89–172):
`os.getenv("GITHUB_TOKEN")` yields `none` when the variable is unset, and
Python's `if not github_token` also treats the empty string as missing. -/
def tokenFlow (env : String → Option String) (invoke : String → Except String String) : List Event :=
  match env "GITHUB_TOKEN" with
  | none => remediationEvents
  | some t => if t = "" then remediationEvents else agentFlow invoke

/-- `src/app.py` lines 79–172: `main` loads the `.env` file via
`load_dotenv`, prints the startup message with `APP_NAME` (default
`"LangChain Agent"`), then runs the token check.  `env` is the environment
as visible after `load_dotenv`; `invoke` abstracts
`agent_executor.invoke`. -/
def main (fsHasDotenv : Bool) (env : String → Option String)
    (invoke : String → Except String String) : List Event :=
  load_dotenv fsHasDotenv ++
  Event.print ("🚀 Starting " ++ ((env "APP_NAME").getD "LangChain Agent") ++ "...") ::
  tokenFlow env invoke

/-! ## Helper lemmas -/

/-- A decimal digit character is never whitespace. -/
theorem isPySpace_digitChar (n : Nat) : isPySpace (Nat.digitChar (n % 10)) = false := by
  have h : n % 10 < 10 := Nat.mod_lt _ (by norm_num)
  revert h
  generalize n % 10 = k
  intro h
  interval_cases k <;> rfl

/-- `dropWhile` is the identity on a list with no whitespace characters. -/
theorem dropWhile_isPySpace_eq_self (l : List Char) (h : ∀ c ∈ l, isPySpace c = false) :
    l.dropWhile isPySpace = l := by
  cases l with
  | nil => rfl
  | cons a l => simp [List.dropWhile_cons, h a (List.mem_cons_self a l)]

/-- `pyStrip` is the identity on a string with no whitespace characters. -/
theorem pyStrip_eq_self (l : List Char) (h : ∀ c ∈ l, isPySpace c = false) :
    pyStrip ⟨l⟩ = ⟨l⟩ := by
  show (⟨((l.dropWhile isPySpace).reverse.dropWhile isPySpace).reverse⟩ : String) = ⟨l⟩
  rw [dropWhile_isPySpace_eq_self l h,
    dropWhile_isPySpace_eq_self _ (fun c hc => h c (List.mem_reverse.mp hc)),
    List.reverse_reverse]

/-- No character of a formatted `YYYY-MM-DD` date is whitespace. -/
theorem noSpace_dateChars (t : PyDateTime) : ∀ c ∈ dateChars t, isPySpace c = false := by
  intro c hc
  simp [dateChars, digit4, digit2] at hc
  rcases hc with h | h | h | h | h | h | h | h | h | h <;> subst h <;>
    first
      | exact isPySpace_digitChar _
      | rfl

/-! ## Claim theorems -/

/-- C2: reversing a string twice returns the original string, for every
string. -/
theorem reverse_string_involution (s : String) :
    reverse_string (reverse_string s) = s := by
  cases s with
  | mk data => simp [reverse_string]

/-- C9: `reverse_string` preserves the length of the string and the
multiset of its characters — reversal is a permutation of the input. -/
theorem reverse_string_permutes (s : String) :
    (reverse_string s).length = s.length ∧
    ((reverse_string s).data : Multiset Char) = (s.data : Multiset Char) := by
  constructor
  · show s.data.reverse.length = s.data.length
    exact List.length_reverse s.data
  · exact Multiset.coe_eq_coe.mpr (List.reverse_perm s.data)

/-- C8: the output of `get_current_time` does not depend on its input
argument: at the same clock instant, any two inputs give the same
result. -/
theorem get_current_time_input_independent (now : PyDateTime) (i1 i2 : String) :
    get_current_time now i1 = get_current_time now i2 := rfl

/-- C5: for every clock instant and every string input, `get_weather`
returns one of exactly the two fixed strings; its `except` branch cannot
fire on a string argument (the embedding is a total function into these
two values). -/
theorem get_weather_two_outcomes (now : PyDateTime) (date : String) :
    get_weather now date = "Sunny, 72°F" ∨ get_weather now date = "Rainy, 55°F" := by
  unfold get_weather
  by_cases h : pyStrip date = strftimeDate now
  · exact Or.inl (if_pos h)
  · exact Or.inr (if_neg h)

/-- C1 as stated is false: with the clock at 2026-10-12, the input
`" 2026-10-12"` is not exactly equal to today's formatted date
`"2026-10-12"`, yet `get_weather` returns the sunny string, because the
source strips surrounding whitespace before comparing. -/
theorem get_weather_not_exact_equality :
    get_weather ⟨2026, 10, 12, 0, 0, 0⟩ " 2026-10-12" = "Sunny, 72°F" ∧
    (" 2026-10-12" : String) ≠ "2026-10-12" ∧
    strftimeDate ⟨2026, 10, 12, 0, 0, 0⟩ = "2026-10-12" := by
  refine ⟨by decide, by decide, by decide⟩

/-- C1 (amended): `get_weather` returns the sunny string exactly when the
whitespace-stripped input equals the current date formatted `YYYY-MM-DD`,
and the rainy string for every other input; consequently, for any input
without surrounding whitespace — in particular every well-formed date
string — it returns sunny precisely when the input exactly equals today's
date. -/
theorem get_weather_sunny_iff (now : PyDateTime) (date : String) :
    (get_weather now date = "Sunny, 72°F" ↔ pyStrip date = strftimeDate now) ∧
    (pyStrip date ≠ strftimeDate now → get_weather now date = "Rainy, 55°F") ∧
    (pyStrip date = date →
      (get_weather now date = "Sunny, 72°F" ↔ date = strftimeDate now)) := by
  have hne : ("Rainy, 55°F" : String) ≠ "Sunny, 72°F" := by decide
  have hiff : get_weather now date = "Sunny, 72°F" ↔ pyStrip date = strftimeDate now := by
    unfold get_weather
    by_cases h : pyStrip date = strftimeDate now
    · rw [if_pos h]
      exact ⟨fun _ => h, fun _ => rfl⟩
    · rw [if_neg h]
      exact ⟨fun habs => absurd habs hne, fun hc => absurd hc h⟩
  refine ⟨hiff, fun h => ?_, fun hid => ?_⟩
  · unfold get_weather
    rw [if_neg h]
  · rw [hiff, hid]

/-- Witness for the amended C1 at a concrete instant and input. -/
theorem get_weather_sunny_iff_witness :
    get_weather ⟨2026, 10, 12, 0, 0, 0⟩ "2026-10-11" = "Rainy, 55°F" :=
  (get_weather_sunny_iff ⟨2026, 10, 12, 0, 0, 0⟩ "2026-10-11").2.1 (by decide)

/-- C10: at any clock instant (within `datetime`'s ranges), the first 10
characters of `get_current_time`'s output are exactly the `YYYY-MM-DD`
string that `get_weather` compares its input against, and feeding that
date part to `get_weather` at the same instant selects the sunny
branch. -/
theorem get_current_time_date_part (now : PyDateTime) (input : String)
    (h : now.Valid) :
    (get_current_time now input).data.take 10 = (strftimeDate now).data ∧
    get_weather now ⟨(get_current_time now input).data.take 10⟩ = "Sunny, 72°F" := by
  have hlen : (dateChars now).length = 10 := by simp [dateChars, digit4, digit2]
  have htake : (get_current_time now input).data.take 10 = dateChars now := by
    show (dateChars now ++ [' '] ++ timeChars now).take 10 = dateChars now
    rw [List.append_assoc, ← hlen, List.take_left]
  refine ⟨htake, ?_⟩
  rw [htake]
  unfold get_weather strftimeDate
  rw [pyStrip_eq_self (dateChars now) (noSpace_dateChars now), if_pos rfl]

/-- Witness for C10 at a concrete valid clock instant. -/
theorem get_current_time_date_part_witness :
    PyDateTime.Valid ⟨2026, 10, 12, 14, 30, 5⟩ ∧
    (get_current_time ⟨2026, 10, 12, 14, 30, 5⟩ "x").data.take 10 =
      (strftimeDate ⟨2026, 10, 12, 14, 30, 5⟩).data :=
  ⟨by decide, (get_current_time_date_part ⟨2026, 10, 12, 14, 30, 5⟩ "x" (by decide)).1⟩

/-- C3: for every behaviour of the external `eval` and every input string,
`calculator` returns the decimal rendering of the computed value when
evaluation succeeds (the valid-arithmetic case) and a string beginning
`"Error evaluating expression:"` when evaluation raises (the invalid
case); as a total function of the evaluation outcome it propagates no
exception. -/
theorem calculator_result_or_error (evalPy : String → Except String Int)
    (expression : String) :
    (∀ v, evalPy expression = Except.ok v →
      calculator evalPy expression = toString v) ∧
    (∀ e, evalPy expression = Except.error e →
      calculator evalPy expression = "Error evaluating expression:" ++ (" " ++ e)) := by
  constructor
  · intro v hv
    unfold calculator
    rw [hv]
  · intro e he
    unfold calculator
    rw [he, ← String.append_assoc,
      show ("Error evaluating expression:" ++ " " : String) = "Error evaluating expression: " from by decide]

/-- Witness for C3: a successful evaluation and a failing one, at concrete
inputs. -/
theorem calculator_result_or_error_witness :
    calculator (fun _ => Except.ok (110 : Int)) "25 * 4 + 10" = toString (110 : Int) ∧
    calculator (fun _ => Except.error "invalid syntax") "25 * (" =
      "Error evaluating expression:" ++ (" " ++ "invalid syntax") :=
  ⟨(calculator_result_or_error (fun _ => Except.ok (110 : Int)) "25 * 4 + 10").1 110 rfl,
   (calculator_result_or_error (fun _ => Except.error "invalid syntax") "25 * (").2
     "invalid syntax" rfl⟩

/-- C4: when `GITHUB_TOKEN` is unset (or empty, which Python's truthiness
test also treats as missing), `main`'s whole trace is the startup line
followed by exactly the five remediation lines: the remediation message is
printed, no model client is constructed, no query is issued, and the
function returns that trace without any fault. -/
theorem main_missing_token (fs : Bool) (env : String → Option String)
    (invoke : String → Except String String)
    (h : env "GITHUB_TOKEN" = none ∨ env "GITHUB_TOKEN" = some "") :
    main fs env invoke =
      load_dotenv fs ++
        Event.print ("🚀 Starting " ++ ((env "APP_NAME").getD "LangChain Agent") ++ "...") ::
        remediationEvents ∧
    Event.print "❌ Error: GITHUB_TOKEN not found in environment variables." ∈
      main fs env invoke ∧
    Event.constructClient ∉ main fs env invoke ∧
    ∀ q, Event.invokeQuery q ∉ main fs env invoke := by
  have htok : tokenFlow env invoke = remediationEvents := by
    rcases h with h | h <;> simp [tokenFlow, h]
  have htr : main fs env invoke =
      load_dotenv fs ++
        Event.print ("🚀 Starting " ++ ((env "APP_NAME").getD "LangChain Agent") ++ "...") ::
        remediationEvents := by
    unfold main
    rw [htok]
  refine ⟨htr, ?_, ?_, ?_⟩
  · rw [htr]
    simp [remediationEvents]
  · rw [htr]
    cases fs <;> simp [load_dotenv, remediationEvents]
  · intro q
    rw [htr]
    cases fs <;> simp [load_dotenv, remediationEvents]

/-- Witness for C4 with a concrete empty environment. -/
theorem main_missing_token_witness :
    Event.constructClient ∉ main false (fun _ => none) (fun _ => Except.error "e") :=
  (main_missing_token false (fun _ => none) (fun _ => Except.error "e") (Or.inl rfl)).2.2.1

/-- C6: `APP_NAME` is optional: when unset, the startup message uses the
default name `"LangChain Agent"`; when set, it uses the supplied value. -/
theorem main_app_name (fs : Bool) (env : String → Option String)
    (invoke : String → Except String String) :
    (env "APP_NAME" = none →
      Event.print "🚀 Starting LangChain Agent..." ∈ main fs env invoke) ∧
    ∀ v, env "APP_NAME" = some v →
      Event.print ("🚀 Starting " ++ v ++ "...") ∈ main fs env invoke := by
  have hmem : Event.print ("🚀 Starting " ++ ((env "APP_NAME").getD "LangChain Agent") ++ "...") ∈
      main fs env invoke := by
    unfold main
    exact List.mem_append_right _ (List.mem_cons_self _ _)
  constructor
  · intro h
    rw [h, Option.getD_none,
      show ("🚀 Starting " ++ "LangChain Agent" ++ "..." : String) =
        "🚀 Starting LangChain Agent..." from by decide] at hmem
    exact hmem
  · intro v h
    rw [h, Option.getD_some] at hmem
    exact hmem

/-- Witness for C6 in both the default and the supplied-value case. -/
theorem main_app_name_witness :
    Event.print "🚀 Starting LangChain Agent..." ∈
      main false (fun _ => none) (fun _ => Except.error "e") ∧
    Event.print ("🚀 Starting " ++ "MyApp" ++ "...") ∈
      main false (fun _ => some "MyApp") (fun _ => Except.error "e") :=
  ⟨(main_app_name false (fun _ => none) (fun _ => Except.error "e")).1 rfl,
   (main_app_name false (fun _ => some "MyApp") (fun _ => Except.error "e")).2 "MyApp" rfl⟩

/-- Every event of one query-loop iteration is a console print or the
query itself. -/
theorem mem_runQuery_cases (invoke : String → Except String String) (q : String)
    (e : Event) (h : e ∈ runQuery invoke q) :
    (∃ s, e = Event.print s) ∨ e = Event.invokeQuery q := by
  unfold runQuery at h
  cases hq : invoke q with
  | ok out =>
      rw [hq] at h
      simp only [List.cons_append, List.nil_append, List.mem_cons,
        List.not_mem_nil, or_false] at h
      rcases h with h | h | h | h
      · exact Or.inl ⟨_, h⟩
      · exact Or.inl ⟨_, h⟩
      · exact Or.inr h
      · exact Or.inl ⟨_, h⟩
  | error err =>
      rw [hq] at h
      simp only [List.cons_append, List.nil_append, List.mem_cons,
        List.not_mem_nil, or_false] at h
      rcases h with h | h | h | h
      · exact Or.inl ⟨_, h⟩
      · exact Or.inl ⟨_, h⟩
      · exact Or.inr h
      · exact Or.inl ⟨_, h⟩

/-- Every event after a successful token check is a console print, the
client construction, or an agent query. -/
theorem mem_agentFlow_cases (invoke : String → Except String String) (e : Event)
    (h : e ∈ agentFlow invoke) :
    (∃ s, e = Event.print s) ∨ e = Event.constructClient ∨
    ∃ q, e = Event.invokeQuery q := by
  unfold agentFlow at h
  rcases List.mem_cons.mp h with h | h
  · exact Or.inl ⟨_, h⟩
  rcases List.mem_cons.mp h with h | h
  · exact Or.inr (Or.inl h)
  rcases List.mem_cons.mp h with h | h
  · exact Or.inl ⟨_, h⟩
  rcases List.mem_cons.mp h with h | h
  · exact Or.inl ⟨_, h⟩
  rcases List.mem_cons.mp h with h | h
  · exact Or.inl ⟨_, h⟩
  rcases List.mem_cons.mp h with h | h
  · exact Or.inl ⟨_, h⟩
  rcases List.mem_append.mp h with h | h
  · rcases List.mem_flatten.mp h with ⟨l, hl, hel⟩
    rcases List.mem_map.mp hl with ⟨q, hq, rfl⟩
    rcases mem_runQuery_cases invoke q e hel with h | h
    · exact Or.inl h
    · exact Or.inr (Or.inr ⟨q, h⟩)
  · rcases List.mem_cons.mp h with h | h
    · exact Or.inl ⟨_, h⟩
    rcases List.mem_cons.mp h with h | h
    · exact Or.inl ⟨_, h⟩
    exact absurd h (List.not_mem_nil e)

/-- Every event of the remediation block is a console print. -/
theorem mem_remediation_cases (e : Event) (h : e ∈ remediationEvents) :
    ∃ s, e = Event.print s := by
  unfold remediationEvents at h
  simp only [List.mem_cons, List.not_mem_nil, or_false] at h
  rcases h with h | h | h | h | h <;> exact ⟨_, h⟩

/-- Every event of `main`'s trace is a console print, the client
construction, an agent query, or the read of the `.env` file. -/
theorem mem_main_cases (fs : Bool) (env : String → Option String)
    (invoke : String → Except String String) (e : Event)
    (h : e ∈ main fs env invoke) :
    (∃ s, e = Event.print s) ∨ e = Event.constructClient ∨
    (∃ q, e = Event.invokeQuery q) ∨ e = Event.fileRead ".env" := by
  unfold main at h
  rcases List.mem_append.mp h with h | h
  · cases fs with
    | false => simp [load_dotenv] at h
    | true =>
        simp only [load_dotenv, if_pos, List.mem_singleton] at h
        exact Or.inr (Or.inr (Or.inr h))
  · rcases List.mem_cons.mp h with h | h
    · exact Or.inl ⟨_, h⟩
    unfold tokenFlow at h
    cases htok : env "GITHUB_TOKEN" with
    | none =>
        rw [htok] at h
        exact Or.inl (mem_remediation_cases e h)
    | some t =>
        rw [htok] at h
        replace h : e ∈ if t = "" then remediationEvents else agentFlow invoke := h
        by_cases ht : t = ""
        · rw [if_pos ht] at h
          exact Or.inl (mem_remediation_cases e h)
        · rw [if_neg ht] at h
          rcases mem_agentFlow_cases invoke e h with h | h | h
          · exact Or.inl h
          · exact Or.inr (Or.inl h)
          · exact Or.inr (Or.inr (Or.inl h))

/-- C7 as stated is false: when a `.env` file exists, the very first thing
`main` does — `load_dotenv()` — reads it. -/
theorem main_reads_env_file :
    Event.fileRead ".env" ∈ main true (fun _ => none) (fun _ => Except.error "e") := by
  unfold main load_dotenv
  simp

/-- C7 (amended): apart from `load_dotenv`'s read of the optional `.env`
file at startup, the program reads no files and writes no files: the trace
contains no file-write event, and every file-read event reads `.env`. -/
theorem main_file_access (fs : Bool) (env : String → Option String)
    (invoke : String → Except String String) :
    (∀ p, Event.fileWrite p ∉ main fs env invoke) ∧
    (∀ p, Event.fileRead p ∈ main fs env invoke → p = ".env") := by
  constructor
  · intro p hmem
    rcases mem_main_cases fs env invoke _ hmem with ⟨s, h⟩ | h | ⟨q, h⟩ | h <;>
      exact Event.noConfusion h
  · intro p hmem
    rcases mem_main_cases fs env invoke _ hmem with ⟨s, h⟩ | h | ⟨q, h⟩ | h
    · exact Event.noConfusion h
    · exact Event.noConfusion h
    · exact Event.noConfusion h
    · injection h

/-- Witness for the amended C7 with concrete environment and filesystem. -/
theorem main_file_access_witness :
    Event.fileWrite "agent.log" ∉ main true (fun _ => none) (fun _ => Except.error "e") ∧
    (".env" : String) = ".env" :=
  ⟨(main_file_access true (fun _ => none) (fun _ => Except.error "e")).1 "agent.log",
   (main_file_access true (fun _ => none) (fun _ => Except.error "e")).2 ".env" (by decide)⟩

end AgentLab
